import Mathlib

/-!
# pgdriver: a database/sql driver adapter over a pgx connection pool

Shallow embedding of `connector.go`, `stmt.go`, `tx.go`.  (`pgdriver.go` only
opens a connector and calls `Connect`.)

* The pgx / pgxpool backend is external.  It is represented by a record of
  response functions (`Backend`), each of which sees the calls made so far, and
  by a log of the calls the adapter performs (`List Event`).
* A Go method of `*Conn` becomes a function from the receiver and the log to
  an optional triple (result, receiver after the call, log after the call);
  `none` stands for a call that does not return.
* The method bodies are written against the value of the `c.rawConn()` call
  (`Conn.*Body`, parameter `rawConn`).  The program itself is obtained by
  plugging in the source definition of `rawConn` (`Conn.rawConn`), which is a
  call to itself and is unfolded `fuel` times.
-/

namespace pgdriver

/-! ## Data model -/

/-- Handle of a backend connection, `*pgx.Conn`. -/
abbrev PgxConn := Nat

/-- Handle of a pooled connection, `*pgxpool.Conn`. -/
abbrev PoolConn := Nat

/-- Handle of a backend row stream, `pgx.Rows`. -/
abbrev RowsHandle := Nat

/-- Handle of a backend transaction, `pgx.Tx`. -/
abbrev TxHandle := Nat

/-- Go `error` values seen by the adapter. -/
inductive GoError where
  /-- The sentinel `driver.ErrBadConn`. -/
  | ErrBadConn
  /-- An error built by `fmt.Errorf`. -/
  | Errorf (msg : String)
  /-- An error built by `errors.New`. -/
  | New (msg : String)
  /-- Any error value produced by pgx, pgconn or the pool. -/
  | Backend (code : Nat)
  deriving DecidableEq, Repr

/-- The `context.Context` of a call.  `fakeTx` is the result of
`ctx.Value(ctxKeyFakeTx).(**pgx.Conn)`: the address of the caller's output slot
(a valid pointer) when the context carries one under the private key, `none`
when the type assertion fails. -/
structure Context where
  id : Nat
  fakeTx : Option Nat
  deriving DecidableEq, Repr

/-- Argument values handed to the backend (`interface{}`);
`resultFormats` is the package variable `databaseSQLResultFormats`. -/
inductive Value where
  | resultFormats
  | null
  | int (n : Int)
  | str (s : String)
  deriving DecidableEq, Repr

/-- Go `driver.NamedValue`. -/
structure NamedValue where
  Name : String
  Ordinal : Int
  Value : Value
  deriving DecidableEq, Repr

/-- Go `driver.TxOptions`; `Isolation` is the integer `driver.IsolationLevel`. -/
structure DriverTxOptions where
  Isolation : Int
  ReadOnly : Bool
  deriving DecidableEq, Repr

/-- Go `pgx.TxIsoLevel`; `unset` is the zero value. -/
inductive TxIsoLevel where
  | unset
  | Serializable
  | RepeatableRead
  | ReadCommitted
  | ReadUncommitted
  deriving DecidableEq, Repr

/-- Go `pgx.TxAccessMode`; `unset` is the zero value. -/
inductive TxAccessMode where
  | unset
  | ReadWrite
  | ReadOnly
  deriving DecidableEq, Repr

/-- Go `pgx.TxOptions` (the deferrable mode is never set by the adapter). -/
structure PgxTxOptions where
  IsoLevel : TxIsoLevel
  AccessMode : TxAccessMode
  deriving DecidableEq, Repr

/-- Go `pgconn.StatementDescription`. -/
structure StatementDescription where
  Name : String
  SQL : String
  ParamOIDs : List Nat
  deriving DecidableEq, Repr

/-- Go `pgconn.CommandTag`, through its only observer `RowsAffected()`. -/
structure CommandTag where
  RowsAffected : Int
  deriving DecidableEq, Repr

/-- The constants of `database/sql` that `BeginTx` switches on. -/
def LevelDefault : Int := 0
def LevelReadUncommitted : Int := 1
def LevelReadCommitted : Int := 2
def LevelWriteCommitted : Int := 3
def LevelRepeatableRead : Int := 4
def LevelSnapshot : Int := 5
def LevelSerializable : Int := 6
def LevelLinearizable : Int := 7

/-- One call made by the adapter on the backend, the pool, a row stream, the
reset hook, or the caller's output slot. -/
inductive Event where
  | Acquire
  | Prepare (h : PgxConn) (name sql : String)
  | Exec (h : PgxConn) (sql : String) (args : List Value)
  | Query (h : PgxConn) (sql : String) (args : List Value)
  | Ping (h : PgxConn) (failed : Bool)
  | BeginTx (h : PgxConn) (opts : PgxTxOptions)
  | Deallocate (h : PgxConn) (name : String)
  | Release (p : PoolConn)
  | ResetHook (h : PgxConn)
  | RowsNext (r : RowsHandle)
  | RowsClose (r : RowsHandle)
  | StoreSlot (slot : Nat) (h : PgxConn)
  | Commit (t : TxHandle)
  | Rollback (t : TxHandle)
  deriving DecidableEq, Repr

/-- The external collaborators: the pgx connection, the pool, the row stream,
`pgconn.SafeToRetry`, and the helper `namedValueToInterface` (declared outside
the files at hand).  Every response may depend on the calls made so far. -/
structure Backend where
  Acquire : List Event → Except GoError PoolConn
  IsClosed : List Event → PgxConn → Bool
  Prepare : List Event → PgxConn → String → String → Except GoError StatementDescription
  Exec : List Event → PgxConn → String → List Value → CommandTag × Option GoError
  Query : List Event → PgxConn → String → List Value → Except GoError RowsHandle
  RowsNext : List Event → RowsHandle → Bool
  RowsErr : List Event → RowsHandle → Option GoError
  Ping : List Event → PgxConn → Option GoError
  BeginTx : List Event → PgxConn → PgxTxOptions → Except GoError TxHandle
  Deallocate : List Event → PgxConn → String → Option GoError
  Commit : List Event → TxHandle → Option GoError
  Rollback : List Event → TxHandle → Option GoError
  SafeToRetry : GoError → Bool
  namedValueToInterface : List NamedValue → List Value

/-- Go `Conn`.  `psCount` is an `int64`; `resetSessionFunc` may be nil. -/
structure Conn where
  poolConn : PoolConn
  driver : Nat
  psCount : Int
  resetSessionFunc : Option (Context → PgxConn → Option GoError)

/-- Go `Stmt`; the back pointer `conn` is passed alongside. -/
structure Stmt where
  stmtDesc : StatementDescription
  deriving DecidableEq, Repr

/-- Go `driver.Tx` as implemented here: `wrapTx{ctx, tx}` or `fakeTx{}`. -/
inductive Tx where
  | wrapTx (ctx : Context) (tx : TxHandle)
  | fakeTx
  deriving DecidableEq, Repr

/-- Modelled from the spec: the row cursor built by
`NewRows(c, rows, skipNext, skipNextMore)`, whose declaration is not among the
source files.  It wraps the backend row stream of a connection and holds the
flag saying that a first row has been fetched ahead (`skipNext`) together with
the result of that fetch (`skipNextMore`); it is kept as the record of the
constructor arguments. -/
structure Rows where
  poolConn : PoolConn
  rows : RowsHandle
  skipNext : Bool
  skipNextMore : Bool
  deriving DecidableEq, Repr

/-- Outcome of a call that returns `α`: `none` when the call does not return,
otherwise the result with the receiver and the call log after the call. -/
abbrev Call (α : Type) := Option (α × Conn × List Event)

/-! ## connector.go -/

/-- Two's complement wrap-around of an `int64`. -/
def wrapInt64 (x : Int) : Int := (x + 2 ^ 63) % 2 ^ 64 - 2 ^ 63

/-- Go `fmt.Sprintf("pgx_%d", n)`. -/
def stmtName (n : Int) : String := "pgx_" ++ toString n

/-- Go `NewConn`: counter zero, reset hook that does nothing. -/
def NewConn (poolConn : PoolConn) (driver : Nat) : Conn :=
  { poolConn := poolConn, driver := driver, psCount := 0,
    resetSessionFunc := some (fun _ _ => none) }

/-- Go `NewStmt`. -/
def NewStmt (stmtDesc : StatementDescription) : Stmt := { stmtDesc := stmtDesc }

/-- Modelled from the spec: the constructor `NewRows`, which records its
arguments in the cursor. -/
def NewRows (c : Conn) (rows : RowsHandle) (skipNext skipNextMore : Bool) : Rows :=
  { poolConn := c.poolConn, rows := rows, skipNext := skipNext, skipNextMore := skipNextMore }

/-- Go `Connector.Connect`: acquire from the pool, wrap with `NewConn`. -/
def Connector.Connect (be : Backend) (driver : Nat) (log : List Event) :
    (Option Conn × Option GoError) × List Event :=
  match be.Acquire log with
  | .error err => ((none, some err), log ++ [Event.Acquire])
  | .ok conn => ((some (NewConn conn driver), none), log ++ [Event.Acquire])

/-- Go `Conn.rawConn`: `return c.rawConn()`.  Each unfolding of the call uses
one unit of fuel; `none` means that no value has been returned within it. -/
def Conn.rawConn : Nat → Conn → Option PgxConn
  | 0, _ => none
  | fuel + 1, c => Conn.rawConn fuel c

/-- Go `Conn.Close`: release the pooled connection, return nil. -/
def Conn.Close (c : Conn) (log : List Event) : Option GoError × Conn × List Event :=
  (none, c, log ++ [Event.Release c.poolConn])

/-- Go `Conn.CheckNamedValue`: always nil. -/
def Conn.CheckNamedValue (c : Conn) (log : List Event) (_nv : NamedValue) :
    Option GoError × Conn × List Event :=
  (none, c, log)

/-- Body of Go `Conn.PrepareContext`. -/
def Conn.PrepareContextBody (rawConn : Conn → Option PgxConn) (be : Backend) (c : Conn)
    (log : List Event) (_ctx : Context) (query : String) :
    Call (Option Stmt × Option GoError) :=
  match rawConn c with
  | none => none
  | some h =>
    if be.IsClosed log h then some ((none, some GoError.ErrBadConn), c, log)
    else
      let name := stmtName c.psCount
      let c1 : Conn := { c with psCount := wrapInt64 (c.psCount + 1) }
      match rawConn c1 with
      | none => none
      | some h1 =>
        let log1 := log ++ [Event.Prepare h1 name query]
        match be.Prepare log h1 name query with
        | .error err => some ((none, some err), c1, log1)
        | .ok sd => some ((some (NewStmt sd), none), c1, log1)

/-- The isolation switch of Go `Conn.BeginTx`: the backend level, or `none`
for the `default:` branch. -/
def isoLevelOf (isolation : Int) : Option TxIsoLevel :=
  if isolation = LevelDefault then some TxIsoLevel.unset
  else if isolation = LevelReadUncommitted then some TxIsoLevel.ReadUncommitted
  else if isolation = LevelReadCommitted then some TxIsoLevel.ReadCommitted
  else if isolation = LevelRepeatableRead ∨ isolation = LevelSnapshot then
    some TxIsoLevel.RepeatableRead
  else if isolation = LevelSerializable then some TxIsoLevel.Serializable
  else none

/-- Body of Go `Conn.BeginTx`. -/
def Conn.BeginTxBody (rawConn : Conn → Option PgxConn) (be : Backend) (c : Conn)
    (log : List Event) (ctx : Context) (opts : DriverTxOptions) :
    Call (Option Tx × Option GoError) :=
  match rawConn c with
  | none => none
  | some h =>
    if be.IsClosed log h then some ((none, some GoError.ErrBadConn), c, log)
    else
      match ctx.fakeTx with
      | some pconn =>
        match rawConn c with
        | none => none
        | some h1 => some ((some Tx.fakeTx, none), c, log ++ [Event.StoreSlot pconn h1])
      | none =>
        match isoLevelOf opts.Isolation with
        | none =>
          some ((none, some (GoError.Errorf ("unsupported isolation: " ++ toString opts.Isolation))),
            c, log)
        | some iso =>
          let pgxOpts : PgxTxOptions :=
            { IsoLevel := iso,
              AccessMode := if opts.ReadOnly then TxAccessMode.ReadOnly else TxAccessMode.unset }
          match rawConn c with
          | none => none
          | some h1 =>
            let log1 := log ++ [Event.BeginTx h1 pgxOpts]
            match be.BeginTx log h1 pgxOpts with
            | .error err => some ((none, some err), c, log1)
            | .ok tx => some ((some (Tx.wrapTx ctx tx), none), c, log1)

/-- Body of Go `Conn.ExecContext`. -/
def Conn.ExecContextBody (rawConn : Conn → Option PgxConn) (be : Backend) (c : Conn)
    (log : List Event) (_ctx : Context) (query : String) (argsV : List NamedValue) :
    Call (Option Int × Option GoError) :=
  match rawConn c with
  | none => none
  | some h =>
    if be.IsClosed log h then some ((none, some GoError.ErrBadConn), c, log)
    else
      let args := be.namedValueToInterface argsV
      match rawConn c with
      | none => none
      | some h1 =>
        let log1 := log ++ [Event.Exec h1 query args]
        let commandTag := (be.Exec log h1 query args).1
        match (be.Exec log h1 query args).2 with
        | some err =>
          if be.SafeToRetry err then some ((none, some GoError.ErrBadConn), c, log1)
          else some ((some commandTag.RowsAffected, some err), c, log1)
        | none => some ((some commandTag.RowsAffected, none), c, log1)

/-- Body of Go `Conn.QueryContext`. -/
def Conn.QueryContextBody (rawConn : Conn → Option PgxConn) (be : Backend) (c : Conn)
    (log : List Event) (_ctx : Context) (query : String) (argsV : List NamedValue) :
    Call (Option Rows × Option GoError) :=
  match rawConn c with
  | none => none
  | some h =>
    if be.IsClosed log h then some ((none, some GoError.ErrBadConn), c, log)
    else
      let args := Value.resultFormats :: be.namedValueToInterface argsV
      match rawConn c with
      | none => none
      | some h1 =>
        let log1 := log ++ [Event.Query h1 query args]
        match be.Query log h1 query args with
        | .error err =>
          if be.SafeToRetry err then some ((none, some GoError.ErrBadConn), c, log1)
          else some ((none, some err), c, log1)
        | .ok rows =>
          let more := be.RowsNext log1 rows
          let log2 := log1 ++ [Event.RowsNext rows]
          match be.RowsErr log2 rows with
          | some err => some ((none, some err), c, log2 ++ [Event.RowsClose rows])
          | none => some ((some (NewRows c rows true more), none), c, log2)

/-- Body of Go `Conn.Ping`. -/
def Conn.PingBody (rawConn : Conn → Option PgxConn) (be : Backend) (c : Conn)
    (log : List Event) (_ctx : Context) : Call (Option GoError) :=
  match rawConn c with
  | none => none
  | some h =>
    if be.IsClosed log h then some (some GoError.ErrBadConn, c, log)
    else
      match rawConn c with
      | none => none
      | some h1 =>
        match be.Ping log h1 with
        | some _ =>
          let closed := Conn.Close c (log ++ [Event.Ping h1 true])
          some (some GoError.ErrBadConn, closed.2.1, closed.2.2)
        | none => some (none, c, log ++ [Event.Ping h1 false])

/-- Body of Go `Conn.ResetSession`. -/
def Conn.ResetSessionBody (rawConn : Conn → Option PgxConn) (be : Backend) (c : Conn)
    (log : List Event) (ctx : Context) : Call (Option GoError) :=
  match rawConn c with
  | none => none
  | some h =>
    if be.IsClosed log h then some (some GoError.ErrBadConn, c, log)
    else
      match c.resetSessionFunc with
      | some f =>
        match rawConn c with
        | none => none
        | some h1 => some (f ctx h1, c, log ++ [Event.ResetHook h1])
      | none => some (none, c, log)

/-! ## stmt.go -/

/-- Body of Go `Stmt.Close`: deallocate the statement by name. -/
def Stmt.CloseBody (rawConn : Conn → Option PgxConn) (be : Backend) (s : Stmt) (c : Conn)
    (log : List Event) : Call (Option GoError) :=
  match rawConn c with
  | none => none
  | some h =>
    some (be.Deallocate log h s.stmtDesc.Name, c, log ++ [Event.Deallocate h s.stmtDesc.Name])

/-- Go `Stmt.NumInput`. -/
def Stmt.NumInput (s : Stmt) : Nat := s.stmtDesc.ParamOIDs.length

/-- Go `Stmt.Exec`: not implemented. -/
def Stmt.Exec (_s : Stmt) (_argsV : List Value) : Option Int × Option GoError :=
  (none, some (GoError.New "Stmt.Exec deprecated and not implemented"))

/-- Go `Stmt.Query`: not implemented. -/
def Stmt.Query (_s : Stmt) (_argsV : List Value) : Option Rows × Option GoError :=
  (none, some (GoError.New "Stmt.Query deprecated and not implemented"))

/-- Body of Go `Stmt.ExecContext`. -/
def Stmt.ExecContextBody (rawConn : Conn → Option PgxConn) (be : Backend) (s : Stmt) (c : Conn)
    (log : List Event) (ctx : Context) (argsV : List NamedValue) :
    Call (Option Int × Option GoError) :=
  Conn.ExecContextBody rawConn be c log ctx s.stmtDesc.Name argsV

/-- Body of Go `Stmt.QueryContext`. -/
def Stmt.QueryContextBody (rawConn : Conn → Option PgxConn) (be : Backend) (s : Stmt) (c : Conn)
    (log : List Event) (ctx : Context) (argsV : List NamedValue) :
    Call (Option Rows × Option GoError) :=
  Conn.QueryContextBody rawConn be c log ctx s.stmtDesc.Name argsV

/-! ## tx.go -/

/-- Go `Commit` of `wrapTx` and of `fakeTx`. -/
def Tx.Commit (be : Backend) (log : List Event) : Tx → Option GoError × List Event
  | Tx.wrapTx _ tx => (be.Commit log tx, log ++ [Event.Commit tx])
  | Tx.fakeTx => (none, log)

/-- Go `Rollback` of `wrapTx` and of `fakeTx`. -/
def Tx.Rollback (be : Backend) (log : List Event) : Tx → Option GoError × List Event
  | Tx.wrapTx _ tx => (be.Rollback log tx, log ++ [Event.Rollback tx])
  | Tx.fakeTx => (none, log)

/-! ## The program: the bodies with the source definition of `rawConn` -/

/-- Go `Conn.PrepareContext`. -/
def Conn.PrepareContext (fuel : Nat) (be : Backend) (c : Conn) (log : List Event)
    (ctx : Context) (query : String) : Call (Option Stmt × Option GoError) :=
  Conn.PrepareContextBody (Conn.rawConn fuel) be c log ctx query

/-- Go `Conn.BeginTx`. -/
def Conn.BeginTx (fuel : Nat) (be : Backend) (c : Conn) (log : List Event)
    (ctx : Context) (opts : DriverTxOptions) : Call (Option Tx × Option GoError) :=
  Conn.BeginTxBody (Conn.rawConn fuel) be c log ctx opts

/-- Go `Conn.ExecContext`. -/
def Conn.ExecContext (fuel : Nat) (be : Backend) (c : Conn) (log : List Event)
    (ctx : Context) (query : String) (argsV : List NamedValue) :
    Call (Option Int × Option GoError) :=
  Conn.ExecContextBody (Conn.rawConn fuel) be c log ctx query argsV

/-- Go `Conn.QueryContext`. -/
def Conn.QueryContext (fuel : Nat) (be : Backend) (c : Conn) (log : List Event)
    (ctx : Context) (query : String) (argsV : List NamedValue) :
    Call (Option Rows × Option GoError) :=
  Conn.QueryContextBody (Conn.rawConn fuel) be c log ctx query argsV

/-- Go `Conn.Ping`. -/
def Conn.Ping (fuel : Nat) (be : Backend) (c : Conn) (log : List Event) (ctx : Context) :
    Call (Option GoError) :=
  Conn.PingBody (Conn.rawConn fuel) be c log ctx

/-- Go `Conn.ResetSession`. -/
def Conn.ResetSession (fuel : Nat) (be : Backend) (c : Conn) (log : List Event)
    (ctx : Context) : Call (Option GoError) :=
  Conn.ResetSessionBody (Conn.rawConn fuel) be c log ctx

/-- Go `Stmt.Close`. -/
def Stmt.Close (fuel : Nat) (be : Backend) (s : Stmt) (c : Conn) (log : List Event) :
    Call (Option GoError) :=
  Stmt.CloseBody (Conn.rawConn fuel) be s c log

/-- Go `Stmt.ExecContext`. -/
def Stmt.ExecContext (fuel : Nat) (be : Backend) (s : Stmt) (c : Conn) (log : List Event)
    (ctx : Context) (argsV : List NamedValue) : Call (Option Int × Option GoError) :=
  Stmt.ExecContextBody (Conn.rawConn fuel) be s c log ctx argsV

/-- Go `Stmt.QueryContext`. -/
def Stmt.QueryContext (fuel : Nat) (be : Backend) (s : Stmt) (c : Conn) (log : List Event)
    (ctx : Context) (argsV : List NamedValue) : Call (Option Rows × Option GoError) :=
  Stmt.QueryContextBody (Conn.rawConn fuel) be s c log ctx argsV

/-! ## Sequences of calls on one adapter -/

/-- One call of the driver layer on a connection adapter or on one of its
statements. -/
inductive Op where
  | PrepareContext (ctx : Context) (query : String)
  | BeginTx (ctx : Context) (opts : DriverTxOptions)
  | ExecContext (ctx : Context) (query : String) (argsV : List NamedValue)
  | QueryContext (ctx : Context) (query : String) (argsV : List NamedValue)
  | Ping (ctx : Context)
  | ResetSession (ctx : Context)
  | CheckNamedValue (nv : NamedValue)
  | StmtClose (s : Stmt)
  | StmtExecContext (s : Stmt) (ctx : Context) (argsV : List NamedValue)
  | StmtQueryContext (s : Stmt) (ctx : Context) (argsV : List NamedValue)
  deriving DecidableEq, Repr

/-- Receiver and log after one call; `none` when the call does not return. -/
def Conn.stepBody (rawConn : Conn → Option PgxConn) (be : Backend) (c : Conn)
    (log : List Event) : Op → Option (Conn × List Event)
  | Op.PrepareContext ctx query =>
    (Conn.PrepareContextBody rawConn be c log ctx query).map (fun r => r.2)
  | Op.BeginTx ctx opts => (Conn.BeginTxBody rawConn be c log ctx opts).map (fun r => r.2)
  | Op.ExecContext ctx query argsV =>
    (Conn.ExecContextBody rawConn be c log ctx query argsV).map (fun r => r.2)
  | Op.QueryContext ctx query argsV =>
    (Conn.QueryContextBody rawConn be c log ctx query argsV).map (fun r => r.2)
  | Op.Ping ctx => (Conn.PingBody rawConn be c log ctx).map (fun r => r.2)
  | Op.ResetSession ctx => (Conn.ResetSessionBody rawConn be c log ctx).map (fun r => r.2)
  | Op.CheckNamedValue nv => some (Conn.CheckNamedValue c log nv).2
  | Op.StmtClose s => (Stmt.CloseBody rawConn be s c log).map (fun r => r.2)
  | Op.StmtExecContext s ctx argsV =>
    (Stmt.ExecContextBody rawConn be s c log ctx argsV).map (fun r => r.2)
  | Op.StmtQueryContext s ctx argsV =>
    (Stmt.QueryContextBody rawConn be s c log ctx argsV).map (fun r => r.2)

/-- The calls of a list made one after the other; a call that does not return
ends the run without a result. -/
def Conn.runBody (rawConn : Conn → Option PgxConn) (be : Backend) :
    List Op → Conn → List Event → Option (Conn × List Event)
  | [], c, log => some (c, log)
  | op :: ops, c, log =>
    match Conn.stepBody rawConn be c log op with
    | none => none
    | some next => Conn.runBody rawConn be ops next.1 next.2

/-- Life of one adapter: `Connector.Connect`, the calls of `ops`, then the
caller's `Close`.  The result is the call log after `Close`; `none` when the
pool gives no connection or some call does not return. -/
def Conn.sessionBody (rawConn : Conn → Option PgxConn) (be : Backend) (driver : Nat)
    (ops : List Op) : Option (List Event) :=
  match Connector.Connect be driver [] with
  | ((some c, _), log) =>
    match Conn.runBody rawConn be ops c log with
    | none => none
    | some fin => some (Conn.Close fin.1 fin.2).2.2
  | ((none, _), _) => none

/-- The run of `ops` by the program. -/
def Conn.run (fuel : Nat) (be : Backend) (ops : List Op) (c : Conn) (log : List Event) :
    Option (Conn × List Event) :=
  Conn.runBody (Conn.rawConn fuel) be ops c log

/-- Number of `Release` calls on the pooled connection `p` in a log. -/
def releaseCount (p : PoolConn) (log : List Event) : Nat :=
  log.count (Event.Release p)

/-- Number of backend pings that failed in a log. -/
def failedPingCount (log : List Event) : Nat :=
  log.countP (fun e => match e with
    | Event.Ping _ true => true
    | _ => false)

/-- The statement names handed to the backend `Prepare`, oldest first. -/
def preparedNames : List Event → List String
  | [] => []
  | Event.Prepare _ name _ :: log => name :: preparedNames log
  | _ :: log => preparedNames log

/-- Whether a call of the list goes through `rawConn`. -/
def Op.usesRawConn : Op → Bool
  | Op.CheckNamedValue _ => false
  | _ => true

/-- What one returned call may have done: the pooled connection is kept, every
new `Release` of it is matched by a new failed ping, and either the counter and
the prepared names are as before or the counter made one step and its old value
named one new statement. -/
def stepEffect (c : Conn) (log : List Event) (next : Conn × List Event) : Prop :=
  next.1.poolConn = c.poolConn ∧
  releaseCount c.poolConn next.2 + failedPingCount log
    = releaseCount c.poolConn log + failedPingCount next.2 ∧
  ((next.1.psCount = c.psCount ∧ preparedNames next.2 = preparedNames log) ∨
   (next.1.psCount = wrapInt64 (c.psCount + 1) ∧
    preparedNames next.2 = preparedNames log ++ [stmtName c.psCount]))

/-- A backend with fixed answers: `closed` is what `IsClosed` reports, `fail`
the error (if any) of every fallible call, `safe` the verdict of
`pgconn.SafeToRetry`. -/
def sampleBackend (closed : Bool) (fail : Option GoError) (safe : Bool) : Backend :=
  { Acquire := fun _ => .ok 1
    IsClosed := fun _ _ => closed
    Prepare := fun _ _ name sql =>
      match fail with
      | some err => .error err
      | none => .ok { Name := name, SQL := sql, ParamOIDs := [] }
    Exec := fun _ _ _ _ => ({ RowsAffected := 0 }, fail)
    Query := fun _ _ _ _ =>
      match fail with
      | some err => .error err
      | none => .ok 3
    RowsNext := fun _ _ => true
    RowsErr := fun _ _ => none
    Ping := fun _ _ => fail
    BeginTx := fun _ _ _ =>
      match fail with
      | some err => .error err
      | none => .ok 4
    Deallocate := fun _ _ _ => none
    Commit := fun _ _ => none
    Rollback := fun _ _ => none
    SafeToRetry := fun _ => safe
    namedValueToInterface := fun argsV => argsV.map (fun nv => nv.Value) }

/-- A context without the escape-hatch key. -/
def plainCtx : Context := { id := 0, fakeTx := none }

/-- A context carrying the escape-hatch key with the output slot 9. -/
def slotCtx : Context := { id := 0, fakeTx := some 9 }

/-! ## The accessor `rawConn` -/

theorem Conn.rawConn_eq_none (fuel : Nat) (c : Conn) : Conn.rawConn fuel c = none := by
  induction fuel with
  | zero => rfl
  | succ n ih => simpa [Conn.rawConn] using ih

theorem Conn.PrepareContext_eq_none (fuel : Nat) (be : Backend) (c : Conn) (log : List Event)
    (ctx : Context) (query : String) : Conn.PrepareContext fuel be c log ctx query = none := by
  simp [Conn.PrepareContext, Conn.PrepareContextBody, Conn.rawConn_eq_none]

theorem Conn.BeginTx_eq_none (fuel : Nat) (be : Backend) (c : Conn) (log : List Event)
    (ctx : Context) (opts : DriverTxOptions) : Conn.BeginTx fuel be c log ctx opts = none := by
  simp [Conn.BeginTx, Conn.BeginTxBody, Conn.rawConn_eq_none]

theorem Conn.ExecContext_eq_none (fuel : Nat) (be : Backend) (c : Conn) (log : List Event)
    (ctx : Context) (query : String) (argsV : List NamedValue) :
    Conn.ExecContext fuel be c log ctx query argsV = none := by
  simp [Conn.ExecContext, Conn.ExecContextBody, Conn.rawConn_eq_none]

theorem Conn.QueryContext_eq_none (fuel : Nat) (be : Backend) (c : Conn) (log : List Event)
    (ctx : Context) (query : String) (argsV : List NamedValue) :
    Conn.QueryContext fuel be c log ctx query argsV = none := by
  simp [Conn.QueryContext, Conn.QueryContextBody, Conn.rawConn_eq_none]

theorem Conn.Ping_eq_none (fuel : Nat) (be : Backend) (c : Conn) (log : List Event)
    (ctx : Context) : Conn.Ping fuel be c log ctx = none := by
  simp [Conn.Ping, Conn.PingBody, Conn.rawConn_eq_none]

theorem Conn.ResetSession_eq_none (fuel : Nat) (be : Backend) (c : Conn) (log : List Event)
    (ctx : Context) : Conn.ResetSession fuel be c log ctx = none := by
  simp [Conn.ResetSession, Conn.ResetSessionBody, Conn.rawConn_eq_none]

theorem Stmt.stmtClose_eq_none (fuel : Nat) (be : Backend) (s : Stmt) (c : Conn)
    (log : List Event) : Stmt.Close fuel be s c log = none := by
  simp [Stmt.Close, Stmt.CloseBody, Conn.rawConn_eq_none]

theorem Stmt.stmtExecContext_eq_none (fuel : Nat) (be : Backend) (s : Stmt) (c : Conn)
    (log : List Event) (ctx : Context) (argsV : List NamedValue) :
    Stmt.ExecContext fuel be s c log ctx argsV = none := by
  simp [Stmt.ExecContext, Stmt.ExecContextBody, Conn.ExecContextBody, Conn.rawConn_eq_none]

theorem Stmt.stmtQueryContext_eq_none (fuel : Nat) (be : Backend) (s : Stmt) (c : Conn)
    (log : List Event) (ctx : Context) (argsV : List NamedValue) :
    Stmt.QueryContext fuel be s c log ctx argsV = none := by
  simp [Stmt.QueryContext, Stmt.QueryContextBody, Conn.QueryContextBody, Conn.rawConn_eq_none]

/-- C9: `rawConn` is a bare call to itself (one unfolding leaves the same
call), so it returns no handle whatever the fuel, and every method that calls
it (PrepareContext, BeginTx, ExecContext, QueryContext, Ping, ResetSession,
Stmt.Close, and the statement methods that delegate) returns nothing for every
input. -/
theorem rawConn_never_returns (fuel : Nat) (be : Backend) (c : Conn) (log : List Event)
    (ctx : Context) (query : String) (argsV : List NamedValue) (opts : DriverTxOptions)
    (s : Stmt) :
    Conn.rawConn (fuel + 1) c = Conn.rawConn fuel c ∧
    Conn.rawConn fuel c = none ∧
    Conn.PrepareContext fuel be c log ctx query = none ∧
    Conn.BeginTx fuel be c log ctx opts = none ∧
    Conn.ExecContext fuel be c log ctx query argsV = none ∧
    Conn.QueryContext fuel be c log ctx query argsV = none ∧
    Conn.Ping fuel be c log ctx = none ∧
    Conn.ResetSession fuel be c log ctx = none ∧
    Stmt.Close fuel be s c log = none ∧
    Stmt.ExecContext fuel be s c log ctx argsV = none ∧
    Stmt.QueryContext fuel be s c log ctx argsV = none :=
  ⟨rfl, Conn.rawConn_eq_none fuel c, Conn.PrepareContext_eq_none fuel be c log ctx query,
    Conn.BeginTx_eq_none fuel be c log ctx opts,
    Conn.ExecContext_eq_none fuel be c log ctx query argsV,
    Conn.QueryContext_eq_none fuel be c log ctx query argsV,
    Conn.Ping_eq_none fuel be c log ctx, Conn.ResetSession_eq_none fuel be c log ctx,
    Stmt.stmtClose_eq_none fuel be s c log, Stmt.stmtExecContext_eq_none fuel be s c log ctx argsV,
    Stmt.stmtQueryContext_eq_none fuel be s c log ctx argsV⟩

/-! ## What the bodies do once `rawConn` yields a handle

The lemmas of this section hold for every accessor.  They describe the code
that follows the `c.rawConn()` calls. -/

/-- With a handle that reports closed, each of the six guarded bodies returns
`driver.ErrBadConn` with a nil result, and leaves receiver and log as they
were. -/
theorem Conn.body_closed_guard (rawConn : Conn → Option PgxConn) (be : Backend) (c : Conn)
    (log : List Event) (ctx : Context) (query : String) (argsV : List NamedValue)
    (opts : DriverTxOptions) (h : PgxConn) (hraw : rawConn c = some h)
    (hclosed : be.IsClosed log h = true) :
    Conn.PrepareContextBody rawConn be c log ctx query
        = some ((none, some GoError.ErrBadConn), c, log) ∧
    Conn.ExecContextBody rawConn be c log ctx query argsV
        = some ((none, some GoError.ErrBadConn), c, log) ∧
    Conn.QueryContextBody rawConn be c log ctx query argsV
        = some ((none, some GoError.ErrBadConn), c, log) ∧
    Conn.PingBody rawConn be c log ctx = some (some GoError.ErrBadConn, c, log) ∧
    Conn.BeginTxBody rawConn be c log ctx opts
        = some ((none, some GoError.ErrBadConn), c, log) ∧
    Conn.ResetSessionBody rawConn be c log ctx = some (some GoError.ErrBadConn, c, log) := by
  simp [Conn.PrepareContextBody, Conn.ExecContextBody, Conn.QueryContextBody, Conn.PingBody,
    Conn.BeginTxBody, Conn.ResetSessionBody, hraw, hclosed]

/-- A failed backend `Exec` on an open handle: one backend call, and the error
is `driver.ErrBadConn` when `SafeToRetry` holds, the backend error otherwise. -/
theorem Conn.body_exec_failure (rawConn : Conn → Option PgxConn) (be : Backend) (c : Conn)
    (log : List Event) (ctx : Context) (query : String) (argsV : List NamedValue)
    (h : PgxConn) (e : GoError) (hraw : rawConn c = some h)
    (hopen : be.IsClosed log h = false)
    (hfail : (be.Exec log h query (be.namedValueToInterface argsV)).2 = some e) :
    ∃ res, Conn.ExecContextBody rawConn be c log ctx query argsV
        = some ((res, some (if be.SafeToRetry e then GoError.ErrBadConn else e)), c,
            log ++ [Event.Exec h query (be.namedValueToInterface argsV)]) := by
  by_cases hs : be.SafeToRetry e = true <;>
    simp [Conn.ExecContextBody, hraw, hopen, hfail, hs]

/-- A failed backend `Query` on an open handle: one backend call, a nil cursor,
and the error is `driver.ErrBadConn` when `SafeToRetry` holds, the backend
error otherwise. -/
theorem Conn.body_query_failure (rawConn : Conn → Option PgxConn) (be : Backend) (c : Conn)
    (log : List Event) (ctx : Context) (query : String) (argsV : List NamedValue)
    (h : PgxConn) (e : GoError) (hraw : rawConn c = some h)
    (hopen : be.IsClosed log h = false)
    (hfail : be.Query log h query (Value.resultFormats :: be.namedValueToInterface argsV)
        = .error e) :
    Conn.QueryContextBody rawConn be c log ctx query argsV
      = some ((none, some (if be.SafeToRetry e then GoError.ErrBadConn else e)), c,
          log ++ [Event.Query h query (Value.resultFormats :: be.namedValueToInterface argsV)]) := by
  by_cases hs : be.SafeToRetry e = true <;>
    simp [Conn.QueryContextBody, hraw, hopen, hfail, hs]

/-- The isolation switch, case by case. -/
theorem isoLevelOf_table (n : Int) :
    isoLevelOf LevelDefault = some TxIsoLevel.unset ∧
    isoLevelOf LevelReadUncommitted = some TxIsoLevel.ReadUncommitted ∧
    isoLevelOf LevelReadCommitted = some TxIsoLevel.ReadCommitted ∧
    isoLevelOf LevelRepeatableRead = some TxIsoLevel.RepeatableRead ∧
    isoLevelOf LevelSnapshot = some TxIsoLevel.RepeatableRead ∧
    isoLevelOf LevelSerializable = some TxIsoLevel.Serializable ∧
    (n ≠ LevelDefault → n ≠ LevelReadUncommitted → n ≠ LevelReadCommitted →
      n ≠ LevelRepeatableRead → n ≠ LevelSnapshot → n ≠ LevelSerializable →
      isoLevelOf n = none) := by
  refine ⟨by decide, by decide, by decide, by decide, by decide, by decide, ?_⟩
  intro h0 h1 h2 h4 h5 h6
  simp [isoLevelOf, h0, h1, h2, h4, h5, h6]

/-- The normal path of `BeginTx` on an open handle: an isolation value outside
the switch gives the "unsupported isolation" error without a backend call;
otherwise the backend `BeginTx` is called once with the mapped level, and with
access mode `ReadOnly` exactly when `opts.ReadOnly` is set. -/
theorem Conn.body_begin_normal (rawConn : Conn → Option PgxConn) (be : Backend) (c : Conn)
    (log : List Event) (ctx : Context) (opts : DriverTxOptions) (h : PgxConn)
    (hraw : rawConn c = some h) (hopen : be.IsClosed log h = false)
    (hctx : ctx.fakeTx = none) :
    (isoLevelOf opts.Isolation = none →
      Conn.BeginTxBody rawConn be c log ctx opts
        = some ((none, some (GoError.Errorf ("unsupported isolation: " ++ toString opts.Isolation))),
            c, log)) ∧
    (∀ iso, isoLevelOf opts.Isolation = some iso →
      ∃ res, Conn.BeginTxBody rawConn be c log ctx opts
        = some (res, c, log ++ [Event.BeginTx h
            { IsoLevel := iso,
              AccessMode := if opts.ReadOnly then TxAccessMode.ReadOnly
                else TxAccessMode.unset }])) := by
  constructor
  · intro hiso
    simp [Conn.BeginTxBody, hraw, hopen, hctx, hiso]
  · intro iso hiso
    simp only [Conn.BeginTxBody, hraw, hopen, hctx, hiso]
    cases be.BeginTx log h
        { IsoLevel := iso,
          AccessMode := if opts.ReadOnly then TxAccessMode.ReadOnly else TxAccessMode.unset }
      <;> simp

/-- The escape hatch of `BeginTx` on an open handle: whatever the options, the
handle is stored in the caller's slot, no backend transaction is begun, and the
no-op transaction is returned with a nil error. -/
theorem Conn.body_begin_escape (rawConn : Conn → Option PgxConn) (be : Backend) (c : Conn)
    (log : List Event) (ctx : Context) (opts : DriverTxOptions) (h : PgxConn) (slot : Nat)
    (hraw : rawConn c = some h) (hopen : be.IsClosed log h = false)
    (hctx : ctx.fakeTx = some slot) :
    Conn.BeginTxBody rawConn be c log ctx opts
      = some ((some Tx.fakeTx, none), c, log ++ [Event.StoreSlot slot h]) := by
  simp [Conn.BeginTxBody, hraw, hopen, hctx]

/-- Commit and rollback of the no-op transaction return nil and call nothing. -/
theorem Tx.fakeTx_noop (be : Backend) (log : List Event) :
    Tx.Commit be log Tx.fakeTx = (none, log) ∧ Tx.Rollback be log Tx.fakeTx = (none, log) :=
  ⟨rfl, rfl⟩

/-- The body of `Ping` on an open handle: a failed backend ping is followed by
`Close` (one `Release`) and `driver.ErrBadConn`; a successful one returns nil
and releases nothing. -/
theorem Conn.body_ping (rawConn : Conn → Option PgxConn) (be : Backend) (c : Conn)
    (log : List Event) (ctx : Context) (h : PgxConn)
    (hraw : rawConn c = some h) (hopen : be.IsClosed log h = false) :
    (∀ e, be.Ping log h = some e →
      Conn.PingBody rawConn be c log ctx
        = some (some GoError.ErrBadConn, c,
            log ++ [Event.Ping h true, Event.Release c.poolConn])) ∧
    (be.Ping log h = none →
      Conn.PingBody rawConn be c log ctx = some (none, c, log ++ [Event.Ping h false])) := by
  constructor
  · intro e he
    simp [Conn.PingBody, Conn.Close, hraw, hopen, he]
  · intro he
    simp [Conn.PingBody, hraw, hopen, he]

/-- The body of `QueryContext` after a successful backend `Query`: the stream
is advanced once; without an iteration error the cursor carries the buffered
flag and the result of that advance; with one the stream is closed and the
error returned with a nil cursor. -/
theorem Conn.body_query_lookahead (rawConn : Conn → Option PgxConn) (be : Backend) (c : Conn)
    (log : List Event) (ctx : Context) (query : String) (argsV : List NamedValue)
    (h : PgxConn) (rows : RowsHandle) (hraw : rawConn c = some h)
    (hopen : be.IsClosed log h = false)
    (hok : be.Query log h query (Value.resultFormats :: be.namedValueToInterface argsV)
        = .ok rows) :
    let log1 := log ++ [Event.Query h query (Value.resultFormats :: be.namedValueToInterface argsV)]
    let log2 := log1 ++ [Event.RowsNext rows]
    (be.RowsErr log2 rows = none →
      Conn.QueryContextBody rawConn be c log ctx query argsV
        = some ((some (NewRows c rows true (be.RowsNext log1 rows)), none), c, log2)) ∧
    (∀ e, be.RowsErr log2 rows = some e →
      Conn.QueryContextBody rawConn be c log ctx query argsV
        = some ((none, some e), c, log2 ++ [Event.RowsClose rows])) := by
  constructor
  · intro herr
    simp only [List.append_assoc, List.singleton_append] at herr
    simp [Conn.QueryContextBody, hraw, hopen, hok, herr]
  · intro e herr
    simp only [List.append_assoc, List.singleton_append] at herr
    simp [Conn.QueryContextBody, hraw, hopen, hok, herr]

/-! ## Effects of one call and of a run, for every accessor -/

theorem releaseCount_append (p : PoolConn) (l1 l2 : List Event) :
    releaseCount p (l1 ++ l2) = releaseCount p l1 + releaseCount p l2 := by
  simp [releaseCount]

theorem failedPingCount_append (l1 l2 : List Event) :
    failedPingCount (l1 ++ l2) = failedPingCount l1 + failedPingCount l2 := by
  simp [failedPingCount]

theorem preparedNames_append (l1 l2 : List Event) :
    preparedNames (l1 ++ l2) = preparedNames l1 ++ preparedNames l2 := by
  induction l1 with
  | nil => rfl
  | cons e l ih => cases e <;> simp [preparedNames, ih]

theorem Conn.stepBody_effect (rawConn : Conn → Option PgxConn) (be : Backend) (c : Conn)
    (log : List Event) (op : Op) (next : Conn × List Event)
    (hstep : Conn.stepBody rawConn be c log op = some next) : stepEffect c log next := by
  cases op <;>
    simp only [Conn.stepBody, Conn.PrepareContextBody, Conn.BeginTxBody, Conn.ExecContextBody,
      Conn.QueryContextBody, Conn.PingBody, Conn.ResetSessionBody, Conn.CheckNamedValue,
      Stmt.CloseBody, Stmt.ExecContextBody, Stmt.QueryContextBody, Conn.Close,
      Option.map_eq_some'] at hstep
  case CheckNamedValue nv =>
    cases hstep
    simp [stepEffect]
  all_goals
    obtain ⟨r, hr, rfl⟩ := hstep
    repeat' split at hr
    all_goals cases hr
    all_goals
      simp [stepEffect, releaseCount_append, failedPingCount_append, preparedNames_append,
        releaseCount, failedPingCount, preparedNames] <;> omega

/-- Only `PrepareContext` moves the statement counter. -/
theorem Conn.stepBody_psCount (rawConn : Conn → Option PgxConn) (be : Backend) (c : Conn)
    (log : List Event) (op : Op) (next : Conn × List Event)
    (hstep : Conn.stepBody rawConn be c log op = some next)
    (hop : ∀ ctx query, op ≠ Op.PrepareContext ctx query) : next.1.psCount = c.psCount := by
  cases op <;>
    simp only [Conn.stepBody, Conn.PrepareContextBody, Conn.BeginTxBody, Conn.ExecContextBody,
      Conn.QueryContextBody, Conn.PingBody, Conn.ResetSessionBody, Conn.CheckNamedValue,
      Stmt.CloseBody, Stmt.ExecContextBody, Stmt.QueryContextBody, Conn.Close,
      Option.map_eq_some'] at hstep
  case PrepareContext ctx query => exact absurd rfl (hop ctx query)
  case CheckNamedValue nv => cases hstep; rfl
  all_goals
    obtain ⟨r, hr, rfl⟩ := hstep
    repeat' split at hr
    all_goals cases hr
    all_goals rfl

theorem Conn.runBody_release (rawConn : Conn → Option PgxConn) (be : Backend) (ops : List Op)
    (c : Conn) (log : List Event) (fin : Conn × List Event)
    (hrun : Conn.runBody rawConn be ops c log = some fin) :
    fin.1.poolConn = c.poolConn ∧
    releaseCount c.poolConn fin.2 + failedPingCount log
      = releaseCount c.poolConn log + failedPingCount fin.2 := by
  induction ops generalizing c log with
  | nil =>
    simp only [Conn.runBody, Option.some.injEq] at hrun
    subst hrun
    exact ⟨rfl, rfl⟩
  | cons op ops ih =>
    simp only [Conn.runBody] at hrun
    split at hrun
    · cases hrun
    · rename_i next hnext
      obtain ⟨hp, hrel, _⟩ := Conn.stepBody_effect rawConn be c log op next hnext
      have hr := ih next.1 next.2 hrun
      rw [hp] at hr
      exact ⟨hr.1, by omega⟩

/-- For every accessor: a life that runs from Connect through the caller's
Close ends with the Release of that Close, and the pooled connection is
released once by it and once more for every backend ping that failed. -/
theorem Conn.sessionBody_release (rawConn : Conn → Option PgxConn) (be : Backend) (driver : Nat)
    (ops : List Op) (log : List Event)
    (hrun : Conn.sessionBody rawConn be driver ops = some log) :
    ∃ p, be.Acquire [] = .ok p ∧ log.getLast? = some (Event.Release p) ∧
      releaseCount p log = 1 + failedPingCount log := by
  unfold Conn.sessionBody Connector.Connect at hrun
  cases hacq : be.Acquire [] with
  | error err => simp [hacq] at hrun
  | ok p =>
    refine ⟨p, rfl, ?_⟩
    simp only [hacq, List.nil_append] at hrun
    cases hfin : Conn.runBody rawConn be ops (NewConn p driver) [Event.Acquire] with
    | none => simp [hfin] at hrun
    | some fin =>
      simp only [hfin, Option.some.injEq] at hrun
      obtain ⟨hp, hrel⟩ := Conn.runBody_release rawConn be ops _ _ fin hfin
      subst hrun
      have hpool : (NewConn p driver).poolConn = p := rfl
      rw [hpool] at hp hrel
      refine ⟨by simp [Conn.Close, hp], ?_⟩
      simp only [Conn.Close, releaseCount_append, failedPingCount_append, hp]
      simp [releaseCount, failedPingCount] at hrel ⊢
      omega

theorem wrapInt64_succ (k : Int) (h0 : 0 ≤ k) (h1 : k + 1 < 2 ^ 63) :
    wrapInt64 (k + 1) = k + 1 := by
  unfold wrapInt64
  norm_num at h1 ⊢
  omega

/-- Statement names in a run, for every accessor: while the `int64` counter
does not overflow, the names handed to the backend are `pgx_k`, `pgx_(k+1)`, …
for the consecutive counter values from the initial `k`, and the counter ends
at `k` plus their number. -/
theorem Conn.runBody_names (rawConn : Conn → Option PgxConn) (be : Backend) (ops : List Op)
    (c : Conn) (log : List Event) (fin : Conn × List Event)
    (hrun : Conn.runBody rawConn be ops c log = some fin)
    (h0 : 0 ≤ c.psCount) (hbound : c.psCount + ops.length < 2 ^ 63) :
    ∃ n : Nat, n ≤ ops.length ∧ fin.1.psCount = c.psCount + n ∧
      preparedNames fin.2
        = preparedNames log ++ (List.range n).map (fun (i : Nat) => stmtName (c.psCount + (i : Int))) := by
  induction ops generalizing c log with
  | nil =>
    simp only [Conn.runBody, Option.some.injEq] at hrun
    subst hrun
    exact ⟨0, le_refl _, by simp, by simp⟩
  | cons op ops ih =>
    simp only [Conn.runBody] at hrun
    split at hrun
    · cases hrun
    · rename_i next hnext
      obtain ⟨_, _, hcount⟩ := Conn.stepBody_effect rawConn be c log op next hnext
      simp only [List.length_cons, Nat.cast_add, Nat.cast_one] at hbound
      rcases hcount with ⟨hps, hnames⟩ | ⟨hps, hnames⟩
      · obtain ⟨n, hn, hfin, hpn⟩ := ih next.1 next.2 hrun (by omega) (by omega)
        refine ⟨n, by simp only [List.length_cons]; omega, by omega, ?_⟩
        rw [hpn, hnames, hps]
      · rw [wrapInt64_succ c.psCount h0 (by omega)] at hps
        obtain ⟨n, hn, hfin, hpn⟩ := ih next.1 next.2 hrun (by omega) (by omega)
        refine ⟨n + 1, by simp only [List.length_cons]; omega, by push_cast; omega, ?_⟩
        rw [hpn, hnames, hps, List.range_succ_eq_map]
        simp only [List.map_cons, List.map_map, List.append_assoc, List.singleton_append,
          Nat.cast_zero, add_zero]
        congr 2
        apply List.map_congr_left
        intro i _
        simp only [Function.comp, Nat.cast_succ]
        congr 1
        ring

/-- Every call that goes through `rawConn` ends the run of the program. -/
theorem Conn.run_eq_none (fuel : Nat) (be : Backend) (ops : List Op) (c : Conn)
    (log : List Event) (hops : ∃ op ∈ ops, op.usesRawConn = true) :
    Conn.run fuel be ops c log = none := by
  induction ops generalizing c log with
  | nil => simp at hops
  | cons op ops ih =>
    by_cases hop : op.usesRawConn = true
    · cases op <;>
        simp_all [Conn.run, Conn.runBody, Conn.stepBody, Conn.PrepareContextBody,
          Conn.BeginTxBody, Conn.ExecContextBody, Conn.QueryContextBody, Conn.PingBody,
          Conn.ResetSessionBody, Stmt.CloseBody, Stmt.ExecContextBody, Stmt.QueryContextBody,
          Conn.rawConn_eq_none, Op.usesRawConn]
    · have hrest : ∃ op ∈ ops, op.usesRawConn = true := by
        obtain ⟨o, ho, hu⟩ := hops
        rcases List.mem_cons.mp ho with rfl | ho
        · exact absurd hu hop
        · exact ⟨o, ho, hu⟩
      simp only [Conn.run, Conn.runBody]
      split
      · rfl
      · exact ih _ _ hrest

/-- Two prepares around a statement close: names `pgx_0` and `pgx_1`, counter
at 2. -/
theorem sample_prepare_names :
    (Conn.runBody (fun _ => some 5) (sampleBackend false none false)
        [Op.PrepareContext plainCtx "SELECT 1",
         Op.StmtClose { stmtDesc := { Name := "pgx_0", SQL := "SELECT 1", ParamOIDs := [] } },
         Op.PrepareContext plainCtx "SELECT 2"]
        (NewConn 1 0) []).map (fun fin => (fin.1.psCount, fin.2))
      = some (2, [Event.Prepare 5 "pgx_0" "SELECT 1", Event.Deallocate 5 "pgx_0",
          Event.Prepare 5 "pgx_1" "SELECT 2"]) := by
  decide

/-- A failed ping: `driver.ErrBadConn`, and the pooled connection released. -/
theorem sample_ping_failure :
    (Conn.PingBody (fun _ => some 5) (sampleBackend false (some (GoError.Backend 7)) false)
        (NewConn 1 0) [] plainCtx).map (fun r => (r.1, r.2.2))
      = some (some GoError.ErrBadConn, [Event.Ping 5 true, Event.Release 1]) := by
  decide

/-- Serializable and read-only reach the backend as such; isolation value 3 is
rejected without a backend call. -/
theorem sample_begin :
    (Conn.BeginTxBody (fun _ => some 5) (sampleBackend false none false) (NewConn 1 0) []
        plainCtx { Isolation := 6, ReadOnly := true }).map (fun r => (r.1, r.2.2))
      = some ((some (Tx.wrapTx plainCtx 4), none),
          [Event.BeginTx 5 { IsoLevel := TxIsoLevel.Serializable,
                             AccessMode := TxAccessMode.ReadOnly }]) ∧
    (Conn.BeginTxBody (fun _ => some 5) (sampleBackend false none false) (NewConn 1 0) []
        plainCtx { Isolation := 3, ReadOnly := true }).map (fun r => (r.1, r.2.2))
      = some ((none, some (GoError.Errorf "unsupported isolation: 3")), []) := by
  decide

/-- A failed exec: `driver.ErrBadConn` when retry-safe, otherwise the backend
error together with the affected-row count. -/
theorem sample_exec_failure :
    (Conn.ExecContextBody (fun _ => some 5) (sampleBackend false (some (GoError.Backend 7)) true)
        (NewConn 1 0) [] plainCtx "UPDATE t SET x = 1" []).map (fun r => (r.1, r.2.2))
      = some ((none, some GoError.ErrBadConn), [Event.Exec 5 "UPDATE t SET x = 1" []]) ∧
    (Conn.ExecContextBody (fun _ => some 5) (sampleBackend false (some (GoError.Backend 7)) false)
        (NewConn 1 0) [] plainCtx "UPDATE t SET x = 1" []).map (fun r => (r.1, r.2.2))
      = some ((some 0, some (GoError.Backend 7)), [Event.Exec 5 "UPDATE t SET x = 1" []]) := by
  decide

/-- A successful query: the result-format directive goes first, the stream is
advanced once, and the cursor carries the buffered flag. -/
theorem sample_query :
    (Conn.QueryContextBody (fun _ => some 5) (sampleBackend false none false) (NewConn 1 0) []
        plainCtx "SELECT $1::int"
        [{ Name := "", Ordinal := 1, Value := Value.int 5 }]).map (fun r => (r.1, r.2.2))
      = some ((some { poolConn := 1, rows := 3, skipNext := true, skipNextMore := true }, none),
          [Event.Query 5 "SELECT $1::int" [Value.resultFormats, Value.int 5],
           Event.RowsNext 3]) := by
  decide

/-! ## The claims on the program -/

/-- C1: the claim is that a call on a closed connection returns
`driver.ErrBadConn`.  On the adapter `NewConn 1 0` with a backend that reports
closed, each of PrepareContext, ExecContext, QueryContext, Ping, BeginTx and
ResetSession returns nothing, whatever the fuel: the guard itself calls
`rawConn`. -/
theorem closed_conn_calls_never_return (fuel : Nat) :
    Conn.PrepareContext fuel (sampleBackend true none false) (NewConn 1 0) [Event.Acquire]
      plainCtx "SELECT 1" = none ∧
    Conn.ExecContext fuel (sampleBackend true none false) (NewConn 1 0) [Event.Acquire]
      plainCtx "SELECT 1" [] = none ∧
    Conn.QueryContext fuel (sampleBackend true none false) (NewConn 1 0) [Event.Acquire]
      plainCtx "SELECT 1" [] = none ∧
    Conn.Ping fuel (sampleBackend true none false) (NewConn 1 0) [Event.Acquire] plainCtx
      = none ∧
    Conn.BeginTx fuel (sampleBackend true none false) (NewConn 1 0) [Event.Acquire] plainCtx
      { Isolation := 0, ReadOnly := false } = none ∧
    Conn.ResetSession fuel (sampleBackend true none false) (NewConn 1 0) [Event.Acquire]
      plainCtx = none :=
  ⟨Conn.PrepareContext_eq_none _ _ _ _ _ _, Conn.ExecContext_eq_none _ _ _ _ _ _ _,
    Conn.QueryContext_eq_none _ _ _ _ _ _ _, Conn.Ping_eq_none _ _ _ _ _,
    Conn.BeginTx_eq_none _ _ _ _ _ _, Conn.ResetSession_eq_none _ _ _ _ _⟩

/-- C3: the claim is that a failed backend Exec or Query comes back as
`driver.ErrBadConn` when retry-safe and unchanged otherwise.  With a backend
whose calls fail with error 7, ExecContext and QueryContext return nothing,
whatever the fuel, both when the error is retry-safe and when it is not. -/
theorem failed_exec_query_never_return (fuel : Nat) (safe : Bool) :
    Conn.ExecContext fuel (sampleBackend false (some (GoError.Backend 7)) safe) (NewConn 1 0)
      [Event.Acquire] plainCtx "UPDATE t SET x = 1" [] = none ∧
    Conn.QueryContext fuel (sampleBackend false (some (GoError.Backend 7)) safe) (NewConn 1 0)
      [Event.Acquire] plainCtx "SELECT 1" [] = none :=
  ⟨Conn.ExecContext_eq_none _ _ _ _ _ _ _, Conn.QueryContext_eq_none _ _ _ _ _ _ _⟩

/-- C4: the claim is the isolation and access-mode table of BeginTx.  On an
open connection and a context without the escape-hatch key, BeginTx returns
nothing, whatever the fuel, for serializable read-only options as well as for
the isolation value 3, which the switch does not list. -/
theorem begin_normal_path_never_returns (fuel : Nat) :
    Conn.BeginTx fuel (sampleBackend false none false) (NewConn 1 0) [Event.Acquire] plainCtx
      { Isolation := LevelSerializable, ReadOnly := true } = none ∧
    Conn.BeginTx fuel (sampleBackend false none false) (NewConn 1 0) [Event.Acquire] plainCtx
      { Isolation := LevelWriteCommitted, ReadOnly := false } = none :=
  ⟨Conn.BeginTx_eq_none _ _ _ _ _ _, Conn.BeginTx_eq_none _ _ _ _ _ _⟩

/-- C5: the claim is that BeginTx with the escape-hatch key stores the raw
handle in the slot and returns the no-op transaction.  On an open connection
and a context carrying slot 9, BeginTx returns nothing, whatever the fuel; the
commit and rollback of the no-op transaction themselves return nil and leave
the log as it was. -/
theorem begin_escape_hatch_never_returns (fuel : Nat) :
    Conn.BeginTx fuel (sampleBackend false none false) (NewConn 1 0) [Event.Acquire] slotCtx
      { Isolation := LevelDefault, ReadOnly := false } = none ∧
    Tx.Commit (sampleBackend false none false) [Event.Acquire] Tx.fakeTx
      = (none, [Event.Acquire]) ∧
    Tx.Rollback (sampleBackend false none false) [Event.Acquire] Tx.fakeTx
      = (none, [Event.Acquire]) :=
  ⟨Conn.BeginTx_eq_none _ _ _ _ _ _, rfl, rfl⟩

/-- C6: the claim is that a failed backend ping releases the connection and
returns `driver.ErrBadConn`, and a successful one returns nil.  On an open
connection, Ping returns nothing, whatever the fuel, with a backend whose ping
fails and with one whose ping succeeds. -/
theorem ping_never_returns (fuel : Nat) :
    Conn.Ping fuel (sampleBackend false (some (GoError.Backend 7)) false) (NewConn 1 0)
      [Event.Acquire] plainCtx = none ∧
    Conn.Ping fuel (sampleBackend false none false) (NewConn 1 0) [Event.Acquire] plainCtx
      = none :=
  ⟨Conn.Ping_eq_none _ _ _ _ _, Conn.Ping_eq_none _ _ _ _ _⟩

/-- C7: the claim is that QueryContext advances the stream once and returns a
cursor with the buffered flag.  On an open connection whose backend Query
succeeds, QueryContext returns nothing, whatever the fuel. -/
theorem query_lookahead_never_returns (fuel : Nat) :
    Conn.QueryContext fuel (sampleBackend false none false) (NewConn 1 0) [Event.Acquire]
      plainCtx "SELECT $1::int"
      [{ Name := "", Ordinal := 1, Value := Value.int 5 }] = none :=
  Conn.QueryContext_eq_none _ _ _ _ _ _ _

/-- C10: the claim is that with the escape-hatch key BeginTx returns the no-op
transaction whatever the options.  On an open connection and a context
carrying slot 9, BeginTx returns nothing, whatever the fuel, both for an
isolation value the switch rejects and for one it accepts, read-only or not. -/
theorem begin_escape_ignores_options_never_returns (fuel : Nat) (readOnly : Bool) :
    Conn.BeginTx fuel (sampleBackend false none false) (NewConn 1 0) [Event.Acquire] slotCtx
      { Isolation := LevelLinearizable, ReadOnly := readOnly } = none ∧
    Conn.BeginTx fuel (sampleBackend false none false) (NewConn 1 0) [Event.Acquire] slotCtx
      { Isolation := LevelSerializable, ReadOnly := readOnly } = none :=
  ⟨Conn.BeginTx_eq_none _ _ _ _ _ _, Conn.BeginTx_eq_none _ _ _ _ _ _⟩

end pgdriver
